import Mathlib

/-!
Verification of the EMA-crossover alert bot core: a shallow embedding of
`technical_indicators.py` (crossover / BOS / CHOCH detectors, signal scorer,
market analysis) and `alert_manager.py` (validation, cooldown and
active-signal tracker) over exact rationals, together with theorems checking
the natural-language specification against this embedding.

Conventions of the embedding:
* prices, strengths and times are `ℚ`; wall-clock time (`datetime.now()`)
  is passed explicitly as a `now : ℚ` measured in seconds;
* a pandas OHLCV frame is a `List Candle` in chronological order;
* pandas `NaN` cells (produced by `diff` / incomplete rolling windows) are
  `Option ℚ` with `none`; comparisons against `none` are false, and
  `mean` skips `none` entries, mirroring pandas;
* the loosely-typed `signal_data` dict handed to the alert manager is a
  record of `Option` fields, so that missing keys are representable;
* the external notification dispatch outcome is a `Bool` parameter
  (`any(r["sent"] ...)` in `_send_alert`).
-/

/-! ### Configuration constants (`config.py`) -/

def fastEMA : ℕ := 9

def slowEMA : ℕ := 20

def bosLookback : ℕ := 5

def chochLookback : ℕ := 10

def volumeThreshold : ℚ := 3/2

def minSignalStrength : ℚ := 7/10

def baseSignalCooldown : ℕ := 30

def confirmedSignalCooldown : ℕ := 60

/-! ### OHLCV data and pandas-style list helpers -/

structure Candle where
  copen : ℚ
  high : ℚ
  low : ℚ
  close : ℚ
  volume : ℚ
deriving Repr, DecidableEq

/-- `Series.tail(k)`: the last `k` elements (all of them when shorter). -/
def pdTail (k : ℕ) (xs : List α) : List α := xs.drop (xs.length - k)

/-- `Series.mean()` of a NaN-free series; `0` is unreachable garbage for `[]`. -/
def listMean (xs : List ℚ) : ℚ := xs.sum / xs.length

/-- `Series.mean()` with pandas NaN-skipping: `none` when no value remains. -/
def optMean (xs : List (Option ℚ)) : Option ℚ :=
  let vs := xs.filterMap id
  if vs.isEmpty then none else some (vs.sum / vs.length)

/-- `Series.diff()`: first differences, NaN in the first slot. -/
def pdDiffAux (prev : ℚ) : List ℚ → List (Option ℚ)
  | [] => []
  | x :: xs => some (x - prev) :: pdDiffAux x xs

def pdDiff : List ℚ → List (Option ℚ)
  | [] => []
  | x :: xs => none :: pdDiffAux x xs

/-- `Series.rolling(w).mean()` over a series with NaNs: the value at a
position is the mean of the trailing window of length `w`, NaN while the
window is incomplete or touches a NaN.  `acc` is the prefix already seen. -/
def rollingMeanOptAux (w : ℕ) (acc : List (Option ℚ)) :
    List (Option ℚ) → List (Option ℚ)
  | [] => []
  | x :: xs =>
    let acc2 := acc ++ [x]
    let ws := acc2.drop (acc2.length - w)
    (if ws.length = w ∧ ws.all Option.isSome then optMean ws else none) ::
      rollingMeanOptAux w acc2 xs

def rollingMeanOpt (w : ℕ) (xs : List (Option ℚ)) : List (Option ℚ) :=
  rollingMeanOptAux w [] xs

/-- `Series.rolling(w).max()` over a NaN-free series. -/
def rollingMaxAux (w : ℕ) (acc : List ℚ) : List ℚ → List (Option ℚ)
  | [] => []
  | x :: xs =>
    let acc2 := acc ++ [x]
    let ws := acc2.drop (acc2.length - w)
    (if ws.length = w then ws.max? else none) :: rollingMaxAux w acc2 xs

def rollingMax (w : ℕ) (xs : List ℚ) : List (Option ℚ) := rollingMaxAux w [] xs

/-- `Series.rolling(w).min()` over a NaN-free series. -/
def rollingMinAux (w : ℕ) (acc : List ℚ) : List ℚ → List (Option ℚ)
  | [] => []
  | x :: xs =>
    let acc2 := acc ++ [x]
    let ws := acc2.drop (acc2.length - w)
    (if ws.length = w then ws.min? else none) :: rollingMinAux w acc2 xs

def rollingMin (w : ℕ) (xs : List ℚ) : List (Option ℚ) := rollingMinAux w [] xs

/-- `.iloc[-2]`: the second-to-last element. -/
def atNeg2 (xs : List α) : Option α := (xs.take (xs.length - 1)).getLast?

/-- The last two elements `(.iloc[-2], .iloc[-1])` of a series; garbage
`(0, 0)` below length two (all uses are behind a length guard). -/
def lastTwo (xs : List ℚ) : ℚ × ℚ :=
  match xs.drop (xs.length - 2) with
  | [a, b] => (a, b)
  | _ => (0, 0)

/-! ### `TechnicalIndicators.calculate_ema`
`data.ewm(span=period, adjust=False).mean()`: smoothing factor
`k = 2/(period+1)`, seeded with the first value, recurrence
`ema[t] = price[t]*k + ema[t-1]*(1-k)`. -/

def emaAux (k : ℚ) : ℚ → List ℚ → List ℚ
  | _, [] => []
  | prev, x :: xs =>
    let e := x * k + prev * (1 - k)
    e :: emaAux k e xs

def emaList (period : ℕ) (xs : List ℚ) : List ℚ :=
  match xs with
  | [] => []
  | x :: rest => x :: emaAux (2 / ((period : ℚ) + 1)) x rest

/-! ### `TechnicalIndicators.detect_ema_crossover` -/

structure EmaResult where
  signal : String
  strength : ℚ
  confidence : ℕ
  direction : Option String := none
  fast_ema : Option ℚ := none
  slow_ema : Option ℚ := none
  price : Option ℚ := none
deriving Repr, DecidableEq

/-- Last value of the fast EMA over the close series. -/
def fastEmaLast (df : List Candle) : ℚ :=
  (lastTwo (emaList fastEMA (df.map (·.close)))).2

/-- Last value of the slow EMA over the close series. -/
def slowEmaLast (df : List Candle) : ℚ :=
  (lastTwo (emaList slowEMA (df.map (·.close)))).2

def detectEmaCrossover (df : List Candle) : EmaResult :=
  if df.length < max fastEMA slowEMA + 2 then
    { signal := "insufficient_data", strength := 0, confidence := 0 }
  else
    let closes := df.map (·.close)
    let prevFast := (lastTwo (emaList fastEMA closes)).1
    let currentFast := (lastTwo (emaList fastEMA closes)).2
    let prevSlow := (lastTwo (emaList slowEMA closes)).1
    let currentSlow := (lastTwo (emaList slowEMA closes)).2
    let signalType :=
      if prevFast ≤ prevSlow ∧ currentSlow < currentFast then "bullish_crossover"
      else if prevSlow ≤ prevFast ∧ currentFast < currentSlow then "bearish_crossover"
      else "no_crossover"
    let signalDirection :=
      if prevFast ≤ prevSlow ∧ currentSlow < currentFast then "long"
      else if prevSlow ≤ prevFast ∧ currentFast < currentSlow then "short"
      else "none"
    let strength :=
      if signalType ≠ "no_crossover" then
        min (|currentFast - currentSlow| / currentSlow * 100) 1
      else 0
    { signal := signalType, direction := some signalDirection,
      strength := strength, confidence := 2,
      fast_ema := some currentFast, slow_ema := some currentSlow,
      price := closes.getLast? }

example :
    detectEmaCrossover [] =
      { signal := "insufficient_data", strength := 0, confidence := 0 } := by
  simp [detectEmaCrossover]

/-! ### `TechnicalIndicators.detect_break_of_structure` and
`detect_change_of_character`

Both return a result record with `detected`, `strength`, `volume_confirmed`;
the CHOCH result additionally carries `current_momentum` / `avg_momentum`
(pandas NaN as `none`). -/

structure DetectorResult where
  detected : Bool
  strength : ℚ
  volume_confirmed : Bool
  current_momentum : Option ℚ := none
  avg_momentum : Option ℚ := none
deriving Repr, DecidableEq

def detectBreakOfStructure (df : List Candle) (direction : String) :
    DetectorResult :=
  if df.length < bosLookback + 5 then
    { detected := false, strength := 0, volume_confirmed := false }
  else
    let currentPrice := ((df.map (·.close)).getLast?).getD 0
    let currentVolume := ((df.map (·.volume)).getLast?).getD 0
    let avgVolume := listMean (pdTail 20 (df.map (·.volume)))
    if direction = "long" then
      match atNeg2 (rollingMax bosLookback (df.map (·.high))) with
      | some (some resistanceLevel) =>
        if resistanceLevel < currentPrice then
          let breakDistance := (currentPrice - resistanceLevel) / resistanceLevel
          { detected := true, strength := min (breakDistance * 10) 1,
            volume_confirmed :=
              if 0 < avgVolume then
                decide (avgVolume * volumeThreshold ≤ currentVolume)
              else false }
        else { detected := false, strength := 0, volume_confirmed := false }
      | _ => { detected := false, strength := 0, volume_confirmed := false }
    else if direction = "short" then
      match atNeg2 (rollingMin bosLookback (df.map (·.low))) with
      | some (some supportLevel) =>
        if currentPrice < supportLevel then
          let breakDistance := (supportLevel - currentPrice) / supportLevel
          { detected := true, strength := min (breakDistance * 10) 1,
            volume_confirmed :=
              if 0 < avgVolume then
                decide (avgVolume * volumeThreshold ≤ currentVolume)
              else false }
        else { detected := false, strength := 0, volume_confirmed := false }
      | _ => { detected := false, strength := 0, volume_confirmed := false }
    else { detected := false, strength := 0, volume_confirmed := false }

/-- The smoothed momentum series: `df['close'].diff().rolling(5).mean()`. -/
def momentumMAOf (df : List Candle) : List (Option ℚ) :=
  rollingMeanOpt 5 (pdDiff (df.map (·.close)))

/-- `recent_momentum = df['ema_momentum_ma'].tail(choch_lookback)`. -/
def recentMomentumOf (df : List Candle) : List (Option ℚ) :=
  pdTail chochLookback (momentumMAOf df)

/-- `current_momentum = recent_momentum.iloc[-1]` (NaN as `none`). -/
def currentMomentumOf (df : List Candle) : Option ℚ :=
  ((recentMomentumOf df).getLast?).join

/-- `avg_momentum = recent_momentum.mean()` (pandas skips NaN). -/
def avgMomentumOf (df : List Candle) : Option ℚ :=
  optMean (recentMomentumOf df)

def detectChangeOfCharacter (df : List Candle) (direction : String) :
    DetectorResult :=
  if df.length < chochLookback + 10 then
    { detected := false, strength := 0, volume_confirmed := false }
  else
    let currentMomentum := currentMomentumOf df
    let avgMomentum := avgMomentumOf df
    let currentVolume := ((df.map (·.volume)).getLast?).getD 0
    let avgVolume := listMean (pdTail 20 (df.map (·.volume)))
    let volumeOk := decide (avgVolume * volumeThreshold ≤ currentVolume)
    match currentMomentum, avgMomentum with
    | some c, some a =>
      if direction = "long" then
        if 0 < c ∧ a < 0 then
          let momentumChange := if a ≠ 0 then (c - a) / |a| else 0
          { detected := true, strength := min momentumChange 1,
            volume_confirmed := volumeOk,
            current_momentum := some c, avg_momentum := some a }
        else
          { detected := false, strength := 0, volume_confirmed := false,
            current_momentum := some c, avg_momentum := some a }
      else if direction = "short" then
        if c < 0 ∧ 0 < a then
          let momentumChange := if a ≠ 0 then (a - c) / |a| else 0
          { detected := true, strength := min momentumChange 1,
            volume_confirmed := volumeOk,
            current_momentum := some c, avg_momentum := some a }
        else
          { detected := false, strength := 0, volume_confirmed := false,
            current_momentum := some c, avg_momentum := some a }
      else
        { detected := false, strength := 0, volume_confirmed := false,
          current_momentum := some c, avg_momentum := some a }
    | c, a =>
      { detected := false, strength := 0, volume_confirmed := false,
        current_momentum := c, avg_momentum := a }

/-! ### `TechnicalIndicators.calculate_signal_strength` and
`calculate_confidence_level` -/

def calculateSignalStrength (emaResult : EmaResult)
    (bosResult chochResult : DetectorResult) : ℚ :=
  let baseStrength := emaResult.strength
  let bosContribution :=
    if bosResult.detected then
      if bosResult.volume_confirmed then bosResult.strength * (3/10) * (6/5)
      else bosResult.strength * (3/10)
    else 0
  let chochContribution :=
    if chochResult.detected then
      if chochResult.volume_confirmed then chochResult.strength * (3/10) * (6/5)
      else chochResult.strength * (3/10)
    else 0
  min (max (baseStrength + bosContribution + chochContribution) 0) 1

def calculateConfidenceLevel (signalStrength : ℚ) (confirmations : ℕ) : ℕ :=
  let baseConfidence : ℕ :=
    if 9/10 ≤ signalStrength then 5
    else if 8/10 ≤ signalStrength then 4
    else if 7/10 ≤ signalStrength then 3
    else if 6/10 ≤ signalStrength then 2
    else 1
  min (baseConfidence + min confirmations 2) 5

/-! ### `TechnicalIndicators.analyze_market` -/

structure AnalyzeResult where
  signal : String
  strength : ℚ
  confidence : ℕ
  direction : Option String := none
  confirmations : ℕ := 0
  price : Option ℚ := none
deriving Repr, DecidableEq

def analyzeMarket (df : List Candle) : AnalyzeResult :=
  let emaResult := detectEmaCrossover df
  if emaResult.signal = "no_crossover" then
    { signal := "no_signal", strength := 0, confidence := 0 }
  else
    match emaResult.direction with
    | none =>
      -- reading `ema_result["direction"]` raises `KeyError`, which the
      -- surrounding handler converts into the error fallback result
      { signal := "error", strength := 0, confidence := 0 }
    | some dir =>
      let bosResult := detectBreakOfStructure df dir
      let chochResult := detectChangeOfCharacter df dir
      let signalStrength := calculateSignalStrength emaResult bosResult chochResult
      let confirmations :=
        (if bosResult.detected then 1 else 0) + (if chochResult.detected then 1 else 0)
      let confidence := calculateConfidenceLevel signalStrength confirmations
      let signalType :=
        if minSignalStrength ≤ signalStrength ∧ 1 ≤ confirmations then
          "confirmed_signal"
        else if emaResult.signal ≠ "no_crossover" then "base_signal"
        else "no_signal"
      { signal := signalType, direction := some dir, strength := signalStrength,
        confidence := confidence, confirmations := confirmations,
        price := (df.map (·.close)).getLast? }

/-! ### `AlertManager` (`alert_manager.py`)

Per-symbol dictionaries are association lists with Python-dict update
semantics (last write wins); `datetime.now()` is the explicit `now`
parameter in seconds, `timedelta(minutes=m)` is `m * 60`. -/

def dictGet : List (String × α) → String → Option α
  | [], _ => none
  | (k2, v) :: rest, k => if k2 = k then some v else dictGet rest k

def dictDel : List (String × α) → String → List (String × α)
  | [], _ => []
  | (k2, v) :: rest, k =>
    if k2 = k then dictDel rest k else (k2, v) :: dictDel rest k

def dictSet (m : List (String × α)) (k : String) (v : α) : List (String × α) :=
  dictDel m k ++ [(k, v)]

/-- The `signal_data` dict given to `process_signal`; `none` models a
missing key. -/
structure SignalData where
  signal : Option String := none
  direction : Option String := none
  strength : Option ℚ := none
  confidence : Option ℚ := none
  price : Option ℚ := none
  confirmations : ℕ := 0
deriving Repr, DecidableEq

/-- `self.signal_cooldowns[symbol]`. -/
structure CooldownEntry where
  end_time : ℚ
  duration_minutes : ℕ
  signal_type : String
deriving Repr, DecidableEq

/-- `self.active_signals[symbol]`. -/
structure ActiveSignal where
  signal : String
  direction : String
  strength : ℚ
  confidence : ℚ
  timestamp : ℚ
  price : Option ℚ
  confirmations : ℕ
deriving Repr, DecidableEq

/-- One record of `self.signal_history`. -/
structure HistoryRecord where
  timestamp : ℚ
  symbol : String
  signal_type : String
  direction : String
  strength : ℚ
  confidence : ℚ
  price : Option ℚ
  confirmations : ℕ
  alert_sent : Bool
deriving Repr, DecidableEq

/-- The mutable state of an `AlertManager`. -/
structure AlertState where
  signal_history : List HistoryRecord := []
  active_signals : List (String × ActiveSignal) := []
  signal_cooldowns : List (String × CooldownEntry) := []
deriving Repr, DecidableEq

/-- `AlertManager._validate_signal_data`. -/
def validateSignalData (sd : SignalData) : Bool :=
  match sd.signal, sd.direction, sd.strength, sd.confidence with
  | some s, some d, some strengthVal, some confidenceVal =>
    if (s = "base_signal" ∨ s = "confirmed_signal" ∨ s = "no_signal") ∧
        (d = "long" ∨ d = "short") ∧
        (0 ≤ strengthVal ∧ strengthVal ≤ 1) ∧
        (0 ≤ confidenceVal ∧ confidenceVal ≤ 5) then true
    else false
  | _, _, _, _ => false

structure CooldownStatus where
  in_cooldown : Bool
  remaining_seconds : ℤ
deriving Repr, DecidableEq

/-- `AlertManager._check_cooldown`, returning the status together with the
(possibly lazily cleaned) cooldown dictionary. -/
def checkCooldown (now : ℚ) (symbol : String)
    (cooldowns : List (String × CooldownEntry)) :
    CooldownStatus × List (String × CooldownEntry) :=
  match dictGet cooldowns symbol with
  | none => (⟨false, 0⟩, cooldowns)
  | some cooldownInfo =>
    if cooldownInfo.end_time ≤ now then
      (⟨false, 0⟩, dictDel cooldowns symbol)
    else
      (⟨true, ⌊cooldownInfo.end_time - now⌋⟩, cooldowns)

structure SignalUpdate where
  type : String
  should_alert : Bool
deriving Repr, DecidableEq

/-- `AlertManager._analyze_signal_update`. -/
def analyzeSignalUpdate (symbol : String) (sd : SignalData)
    (activeSignals : List (String × ActiveSignal)) : SignalUpdate :=
  match dictGet activeSignals symbol with
  | none => ⟨"new_signal", true⟩
  | some previousSignal =>
    if previousSignal.signal ≠ sd.signal.getD "" ∨
        previousSignal.direction ≠ sd.direction.getD "" ∨
        (1 : ℚ)/10 < |previousSignal.strength - sd.strength.getD 0| ∨
        previousSignal.confidence ≠ sd.confidence.getD 0 then
      ⟨"signal_update", true⟩
    else ⟨"no_change", false⟩

/-- `AlertManager._set_cooldown`. -/
def setCooldown (now : ℚ) (symbol : String) (sd : SignalData)
    (cooldowns : List (String × CooldownEntry)) :
    List (String × CooldownEntry) :=
  let cooldownMinutes :=
    if sd.signal.getD "" = "confirmed_signal" then confirmedSignalCooldown
    else baseSignalCooldown
  dictSet cooldowns symbol
    ⟨now + cooldownMinutes * 60, cooldownMinutes, sd.signal.getD ""⟩

/-- `AlertManager._update_active_signals`. -/
def updateActiveSignals (now : ℚ) (symbol : String) (sd : SignalData)
    (activeSignals : List (String × ActiveSignal)) :
    List (String × ActiveSignal) :=
  dictSet activeSignals symbol
    ⟨sd.signal.getD "", sd.direction.getD "", sd.strength.getD 0,
     sd.confidence.getD 0, now, sd.price, sd.confirmations⟩

/-- The record appended by `AlertManager._record_signal`. -/
def mkHistoryRecord (now : ℚ) (symbol : String) (sd : SignalData)
    (alertSuccess : Bool) : HistoryRecord :=
  ⟨now, symbol, sd.signal.getD "", sd.direction.getD "", sd.strength.getD 0,
   sd.confidence.getD 0, sd.price, sd.confirmations, alertSuccess⟩

/-- `AlertManager._record_signal`: append, then keep only the most recent
1000 records. -/
def recordSignal (now : ℚ) (symbol : String) (sd : SignalData)
    (alertSuccess : Bool) (history : List HistoryRecord) :
    List HistoryRecord :=
  if 1000 < (history ++ [mkHistoryRecord now symbol sd alertSuccess]).length then
    (history ++ [mkHistoryRecord now symbol sd alertSuccess]).drop
      ((history ++ [mkHistoryRecord now symbol sd alertSuccess]).length - 1000)
  else history ++ [mkHistoryRecord now symbol sd alertSuccess]

/-- The verdict dict returned by `process_signal`; absent keys are `none`. -/
structure ProcessResult where
  processed : Bool
  alert_sent : Bool
  reason : Option String := none
  strength : Option ℚ := none
  cooldown_remaining : Option ℤ := none
  signal_update : Option SignalUpdate := none
  cooldown_set : Option Bool := none
deriving Repr, DecidableEq

/-- `AlertManager.process_signal`.  `dispatchSuccess` is the outcome the
notification collaborator reports (`any(r["sent"] ...)`); the alert is
attempted only when the novelty analysis says so, and state is mutated only
when dispatch succeeds. -/
def processSignal (now : ℚ) (dispatchSuccess : Bool) (symbol : String)
    (sd : SignalData) (st : AlertState) : ProcessResult × AlertState :=
  if validateSignalData sd then
    if sd.strength.getD 0 < minSignalStrength then
      ({ processed := false, alert_sent := false,
         reason := some "insufficient_strength",
         strength := some (sd.strength.getD 0) }, st)
    else
      let cooldownCheck := checkCooldown now symbol st.signal_cooldowns
      let st2 : AlertState := { st with signal_cooldowns := cooldownCheck.2 }
      if cooldownCheck.1.in_cooldown then
        ({ processed := true, alert_sent := false, reason := some "cooldown",
           cooldown_remaining := some cooldownCheck.1.remaining_seconds }, st2)
      else
        let signalUpdate := analyzeSignalUpdate symbol sd st2.active_signals
        if signalUpdate.should_alert && dispatchSuccess then
          ({ processed := true, alert_sent := true,
             signal_update := some signalUpdate, cooldown_set := some true },
           { signal_cooldowns := setCooldown now symbol sd st2.signal_cooldowns,
             active_signals := updateActiveSignals now symbol sd st2.active_signals,
             signal_history := recordSignal now symbol sd true st2.signal_history })
        else
          ({ processed := true, alert_sent := false,
             signal_update := some signalUpdate, cooldown_set := some false },
           st2)
  else
    ({ processed := false, alert_sent := false,
       reason := some "invalid_signal_data" }, st)

/-- Fold a list of timed submissions `(now, dispatch outcome, signal_data)`
for one symbol through `process_signal`, counting dispatched alerts. -/
def runCalls (symbol : String) :
    AlertState → List (ℚ × Bool × SignalData) → AlertState × ℕ
  | st, [] => (st, 0)
  | st, (t, d, sd) :: rest =>
    let step := processSignal t d symbol sd st
    let tailRun := runCalls symbol step.2 rest
    (tailRun.1, (if step.1.alert_sent then 1 else 0) + tailRun.2)

/-- How a caller hands an analysis result to `process_signal`: the analysis
dict itself is the `signal_data` payload. -/
def toSignalData (r : AnalyzeResult) : SignalData :=
  { signal := some r.signal, direction := r.direction,
    strength := some r.strength, confidence := some (r.confidence : ℚ),
    price := r.price, confirmations := r.confirmations }

/-! ### General helper lemmas -/

theorem dictGet_dictDel (m : List (String × α)) (k : String) :
    dictGet (dictDel m k) k = none := by
  induction m with
  | nil => simp [dictDel, dictGet]
  | cons p rest ih =>
    obtain ⟨k2, v⟩ := p
    by_cases h : k2 = k
    · simpa [dictDel, h] using ih
    · simpa [dictDel, dictGet, h] using ih

theorem dictGet_dictSet (m : List (String × α)) (k : String) (v : α) :
    dictGet (dictSet m k v) k = some v := by
  induction m with
  | nil => simp [dictSet, dictDel, dictGet]
  | cons p rest ih =>
    obtain ⟨k2, w⟩ := p
    by_cases h : k2 = k
    · simpa [dictSet, dictDel, h] using ih
    · simpa [dictSet, dictDel, dictGet, h] using ih

theorem recordSignal_eq_drop (now : ℚ) (symbol : String) (sd : SignalData)
    (b : Bool) (history : List HistoryRecord) :
    recordSignal now symbol sd b history =
      (history ++ [mkHistoryRecord now symbol sd b]).drop
        ((history.length + 1) - 1000) := by
  unfold recordSignal
  split_ifs with h
  · simp
  · simp at h
    have h0 : history.length + 1 - 1000 = 0 := by omega
    simp [h0]

theorem neShortLong : "short" ≠ "long" := by decide

theorem neBullishNo : "bullish_crossover" ≠ "no_crossover" := by decide

theorem neBearishNo : "bearish_crossover" ≠ "no_crossover" := by decide

theorem neInsufficientNo : "insufficient_data" ≠ "no_crossover" := by decide

/-- Below the `max(fast, slow) + 2 = slow + 2` bar count the crossover
detector degrades to the `insufficient_data` result. -/
theorem detectEmaCrossover_short (df : List Candle)
    (h : df.length < slowEMA + 2) :
    detectEmaCrossover df =
      { signal := "insufficient_data", strength := 0, confidence := 0 } := by
  have hmax : max fastEMA slowEMA = slowEMA := by decide
  unfold detectEmaCrossover
  rw [if_pos]
  rw [hmax]
  exact h

/-- A reported bullish crossover comes with direction `"long"`. -/
theorem detectEmaCrossover_bullish_direction (df : List Candle)
    (h : (detectEmaCrossover df).signal = "bullish_crossover") :
    (detectEmaCrossover df).direction = some "long" := by
  simp only [detectEmaCrossover] at h ⊢
  split_ifs at h ⊢ <;>
    first
      | rfl
      | exact absurd h (by decide)
      | simp_all

/-! ### Claim C8: scorer bounds and monotonicity -/

/-- **C8**: the scorer's total strength always lies in `[0,1]`; the
confidence level always lies in `[1,5]`, equals the threshold map of the
total strength (`≥0.9→5, ≥0.8→4, ≥0.7→3, ≥0.6→2, else 1`) plus
`min(confirmations, 2)` capped at 5, and is monotonically non-decreasing in
the total strength and in the number of confirmations. -/
theorem scorer_bounds_and_monotonicity :
    (∀ e : EmaResult, ∀ b c : DetectorResult,
      0 ≤ calculateSignalStrength e b c ∧ calculateSignalStrength e b c ≤ 1) ∧
    (∀ s : ℚ, ∀ k : ℕ,
      1 ≤ calculateConfidenceLevel s k ∧ calculateConfidenceLevel s k ≤ 5) ∧
    (∀ s : ℚ, ∀ k : ℕ,
      calculateConfidenceLevel s k =
        min ((if 9/10 ≤ s then 5
              else if 8/10 ≤ s then 4
              else if 7/10 ≤ s then 3
              else if 6/10 ≤ s then 2
              else 1) + min k 2) 5) ∧
    (∀ s t : ℚ, ∀ k : ℕ, s ≤ t →
      calculateConfidenceLevel s k ≤ calculateConfidenceLevel t k) ∧
    (∀ s : ℚ, ∀ k l : ℕ, k ≤ l →
      calculateConfidenceLevel s k ≤ calculateConfidenceLevel s l) := by
  refine ⟨fun e b c => ?_, fun s k => ?_, fun s k => rfl, fun s t k hst => ?_, fun s k l hkl => ?_⟩
  · exact ⟨le_min (le_max_right _ _) zero_le_one, min_le_right _ _⟩
  · simp only [calculateConfidenceLevel]
    split_ifs <;> omega
  · simp only [calculateConfidenceLevel]
    have hb : (if (9:ℚ)/10 ≤ s then (5:ℕ)
        else if 8/10 ≤ s then 4
        else if 7/10 ≤ s then 3
        else if 6/10 ≤ s then 2
        else 1) ≤
        (if (9:ℚ)/10 ≤ t then (5:ℕ)
        else if 8/10 ≤ t then 4
        else if 7/10 ≤ t then 3
        else if 6/10 ≤ t then 2
        else 1) := by
      split_ifs <;> first | omega | linarith
    omega
  · simp only [calculateConfidenceLevel]
    omega

/-- Witness for C8 at concrete inputs. -/
theorem scorer_bounds_and_monotonicity_witness :
    calculateConfidenceLevel (1/2) 0 ≤ calculateConfidenceLevel (3/4) 0 ∧
    (1:ℚ)/2 ≤ 3/4 :=
  ⟨scorer_bounds_and_monotonicity.2.2.2.1 (1/2) (3/4) 0 (by norm_num),
   by norm_num⟩

/-! ### Claim C7: validation gate -/

/-- **C7**: a malformed assessment — missing any of the required fields, or
with signal kind outside the enum, direction outside `{long, short}`,
strength outside `[0,1]`, or confidence outside `[0,5]` — is rejected with
`processed=false`, `alert_sent=false`, reason `"invalid_signal_data"`, and
the tracker state is unchanged. -/
theorem validation_gate_rejects_malformed
    (now : ℚ) (d : Bool) (symbol : String) (sd : SignalData) (st : AlertState)
    (hMalformed :
      sd.signal = none ∨ sd.direction = none ∨ sd.strength = none ∨
      sd.confidence = none ∨
      (∃ s, sd.signal = some s ∧ s ≠ "base_signal" ∧ s ≠ "confirmed_signal" ∧
        s ≠ "no_signal") ∨
      (∃ dir, sd.direction = some dir ∧ dir ≠ "long" ∧ dir ≠ "short") ∨
      (∃ x, sd.strength = some x ∧ (x < 0 ∨ 1 < x)) ∨
      (∃ c, sd.confidence = some c ∧ (c < 0 ∨ 5 < c))) :
    processSignal now d symbol sd st =
      ({ processed := false, alert_sent := false,
         reason := some "invalid_signal_data" }, st) := by
  have hval : validateSignalData sd = false := by
    obtain ⟨sig, dir, str, conf, price, cf⟩ := sd
    rcases hMalformed with h | h | h | h | ⟨s, hs, h1, h2, h3⟩ |
        ⟨dv, hd, h1, h2⟩ | ⟨x, hx, h1⟩ | ⟨c, hc, h1⟩ <;>
      simp_all [validateSignalData] <;>
      cases sig <;> cases dir <;> cases str <;> cases conf <;>
        simp_all [validateSignalData] <;>
      rcases h1 with h1 | h1 <;> intro hh <;> simp_all
  simp [processSignal, hval]

/-- Witness for C7: the spec scenario of an assessment missing the
`confidence` field. -/
theorem validation_gate_rejects_malformed_witness :
    processSignal 0 true "BTCUSDT"
        { signal := some "base_signal", direction := some "long",
          strength := some (4/5) } {} =
      ({ processed := false, alert_sent := false,
         reason := some "invalid_signal_data" }, {}) :=
  validation_gate_rejects_malformed 0 true "BTCUSDT" _ {}
    (Or.inr (Or.inr (Or.inr (Or.inl rfl))))

/-! ### Claim C10: analysis error path on missing direction -/

/-- **C10**: whenever the crossover step returns a result carrying no
direction field (in particular on every series shorter than
`slow_period + 2`), `analyze_market` does not return a `no_signal` or
`insufficient_data` outcome: the attempted read of the missing direction
field lands in the exception handler and the analysis returns signal
`"error"` with strength 0 and confidence 0. -/
theorem analyze_market_error_without_direction (df : List Candle) :
    (df.length < slowEMA + 2 →
      analyzeMarket df = { signal := "error", strength := 0, confidence := 0 }) ∧
    ((detectEmaCrossover df).direction = none →
      (detectEmaCrossover df).signal ≠ "no_crossover" →
      analyzeMarket df = { signal := "error", strength := 0, confidence := 0 }) := by
  have key : (detectEmaCrossover df).direction = none →
      (detectEmaCrossover df).signal ≠ "no_crossover" →
      analyzeMarket df = { signal := "error", strength := 0, confidence := 0 } := by
    intro hdir hsig
    simp only [analyzeMarket]
    rw [if_neg hsig, hdir]
  refine ⟨fun h => ?_, key⟩
  have hd := detectEmaCrossover_short df h
  exact key (by rw [hd]) (by rw [hd]; exact neInsufficientNo)

/-- Witness for C10: the empty series. -/
theorem analyze_market_error_without_direction_witness :
    analyzeMarket [] = { signal := "error", strength := 0, confidence := 0 } :=
  (analyze_market_error_without_direction []).1 (by decide)

/-! ### Claim C2: crossover strength formula (corrected: the code scales
the EMA separation by 100 before capping at 1) -/

/-- **C2 (amended)**: when a bullish or bearish crossover is reported the
strength equals `min(|fast_last - slow_last| / slow_last * 100, 1.0)`
(the code multiplies the relative separation by 100); when no crossover is
reported the strength is 0; and every series shorter than
`slow_period + 2` yields `"insufficient_data"` with strength 0. -/
theorem crossover_strength_formula (df : List Candle) :
    (df.length < slowEMA + 2 →
      detectEmaCrossover df =
        { signal := "insufficient_data", strength := 0, confidence := 0 }) ∧
    ((detectEmaCrossover df).signal = "bullish_crossover" ∨
        (detectEmaCrossover df).signal = "bearish_crossover" →
      (detectEmaCrossover df).strength =
        min (|fastEmaLast df - slowEmaLast df| / slowEmaLast df * 100) 1) ∧
    ((detectEmaCrossover df).signal = "no_crossover" →
      (detectEmaCrossover df).strength = 0) := by
  refine ⟨detectEmaCrossover_short df, ?_, ?_⟩
  · intro hsig
    simp only [detectEmaCrossover, fastEmaLast, slowEmaLast] at hsig ⊢
    split_ifs at hsig ⊢ <;>
      first
        | rfl
        | (rcases hsig with hsig | hsig <;> exact absurd hsig (by decide))
        | simp_all
  · intro hsig
    simp only [detectEmaCrossover] at hsig ⊢
    split_ifs at hsig ⊢ <;>
      first
        | rfl
        | exact absurd hsig (by decide)
        | simp_all

/-! ### A concrete 22-bar series

21 bars at close 100 followed by one close `x = 183650/1833 ≈ 100.19`,
chosen so that the fast EMA crosses above the slow EMA on the last bar with
relative separation exactly `1/5000` and hence code strength
`min(1/5000 * 100, 1) = 0.02`, while highs at 200 keep BOS undetected and
the flat history keeps CHOCH undetected. -/

def mkCandle (c : ℚ) : Candle := ⟨100, 200, 50, c, 1000⟩

def testSeries : List Candle :=
  (List.replicate 21 (mkCandle 100)) ++ [mkCandle (183650/1833)]

set_option maxHeartbeats 1000000 in
theorem testSeries_fastLast : fastEmaLast testSeries = 183370/1833 := by
  simp [fastEmaLast, testSeries, mkCandle, emaList, emaAux, lastTwo, fastEMA]
  norm_num

set_option maxHeartbeats 1000000 in
theorem testSeries_slowLast : slowEmaLast testSeries = 3850000/38493 := by
  simp [slowEmaLast, testSeries, mkCandle, emaList, emaAux, lastTwo, slowEMA]
  norm_num

set_option maxHeartbeats 1000000 in
theorem testSeries_detect :
    detectEmaCrossover testSeries =
      { signal := "bullish_crossover", strength := 1/50, confidence := 2,
        direction := some "long", fast_ema := some (183370/1833),
        slow_ema := some (3850000/38493), price := some (183650/1833) } := by
  simp [detectEmaCrossover, testSeries, mkCandle, emaList, emaAux, lastTwo,
    fastEMA, slowEMA]
  norm_num
  rw [if_neg (by decide), abs_of_nonneg (by norm_num),
    min_eq_left (by norm_num)]
  norm_num

theorem testSeries_signal :
    (detectEmaCrossover testSeries).signal = "bullish_crossover" := by
  rw [testSeries_detect]

theorem testSeries_strength :
    (detectEmaCrossover testSeries).strength = 1/50 := by
  rw [testSeries_detect]

set_option maxHeartbeats 1000000 in
theorem testSeries_bos :
    (detectBreakOfStructure testSeries "long").detected = false := by
  simp [detectBreakOfStructure, testSeries, mkCandle, bosLookback,
    rollingMax, rollingMaxAux, atNeg2, listMean, pdTail]
  norm_num

set_option maxHeartbeats 1000000 in
theorem testSeries_choch :
    (detectChangeOfCharacter testSeries "long").detected = false := by
  simp [detectChangeOfCharacter, testSeries, mkCandle, chochLookback,
    currentMomentumOf, avgMomentumOf, recentMomentumOf, momentumMAOf,
    rollingMeanOpt, rollingMeanOptAux, pdDiff, pdDiffAux, pdTail, optMean]
  norm_num

/-- **C2 counterexample**: on `testSeries` the detector reports a bullish
crossover with strength `0.02 = 1/50`, while the claimed formula (without
the factor 100) evaluates to `1/5000`, so the claim as stated is false. -/
theorem crossover_strength_formula_counterexample :
    (detectEmaCrossover testSeries).signal = "bullish_crossover" ∧
    (detectEmaCrossover testSeries).strength = 1/50 ∧
    min (|fastEmaLast testSeries - slowEmaLast testSeries| /
        slowEmaLast testSeries) 1 = 1/5000 ∧
    ((1 : ℚ)/50 ≠ 1/5000) := by
  refine ⟨testSeries_signal, testSeries_strength, ?_, by norm_num⟩
  rw [testSeries_fastLast, testSeries_slowLast]
  rw [abs_of_nonneg (by norm_num), min_eq_left (by norm_num)]
  norm_num

/-- Witness for C2: the short-series conjunct at the empty series and the
strength-formula conjunct at `testSeries`. -/
theorem crossover_strength_formula_witness :
    detectEmaCrossover [] =
      { signal := "insufficient_data", strength := 0, confidence := 0 } ∧
    (detectEmaCrossover testSeries).strength =
      min (|fastEmaLast testSeries - slowEmaLast testSeries| /
          slowEmaLast testSeries * 100) 1 :=
  ⟨(crossover_strength_formula []).1 (by decide),
   (crossover_strength_formula testSeries).2.1 (Or.inl testSeries_signal)⟩

/-! ### Claim C4: the weak-crossover scenario (corrected: confidence is 1,
not 2, and the 0.02-strength assessment is rejected by the strength gate,
so no alert is sent and no cooldown is set) -/

/-- **C4 (amended)**: for any series on which the fast EMA crosses above
the slow EMA at the last bar with crossover strength 0.02 and neither BOS
nor CHOCH detected, the analysis classifies the assessment as
`base_signal` with confidence 1; submitting it to a fresh tracker is
rejected with reason `"insufficient_strength"`: no alert is sent and no
cooldown is set (the tracker state is unchanged). -/
theorem basic_crossover_scenario (df : List Candle)
    (hSignal : (detectEmaCrossover df).signal = "bullish_crossover")
    (hStrength : (detectEmaCrossover df).strength = 1/50)
    (hBos : (detectBreakOfStructure df "long").detected = false)
    (hChoch : (detectChangeOfCharacter df "long").detected = false)
    (now : ℚ) (d : Bool) (symbol : String) :
    (analyzeMarket df).signal = "base_signal" ∧
    (analyzeMarket df).confidence = 1 ∧
    (analyzeMarket df).strength = 1/50 ∧
    processSignal now d symbol (toSignalData (analyzeMarket df)) {} =
      ({ processed := false, alert_sent := false,
         reason := some "insufficient_strength",
         strength := some (1/50) }, {}) := by
  have hdir := detectEmaCrossover_bullish_direction df hSignal
  have hA : analyzeMarket df =
      { signal := "base_signal", strength := 1/50, confidence := 1,
        direction := some "long", confirmations := 0,
        price := (df.map (·.close)).getLast? } := by
    simp only [analyzeMarket]
    rw [hSignal, hdir]
    simp [calculateSignalStrength, calculateConfidenceLevel, hBos, hChoch,
      hStrength, minSignalStrength, neBullishNo]
    norm_num [min_def, max_def]
  refine ⟨by rw [hA], by rw [hA], by rw [hA], ?_⟩
  rw [hA]
  simp [processSignal, toSignalData, validateSignalData, minSignalStrength]
  norm_num

theorem testSeries_price :
    (testSeries.map (·.close)).getLast? = some (183650/1833) := by
  rfl

theorem testSeries_getLast :
    testSeries.getLast? = some (mkCandle (183650/1833)) := by
  rfl

/-- `analyze_market` on the concrete 22-bar series. -/
theorem analyzeMarket_testSeries :
    analyzeMarket testSeries =
      { signal := "base_signal", strength := 1/50, confidence := 1,
        direction := some "long", confirmations := 0,
        price := some (183650/1833) } := by
  simp only [analyzeMarket]
  rw [testSeries_detect]
  simp [calculateSignalStrength, calculateConfidenceLevel, testSeries_bos,
    testSeries_choch, minSignalStrength, neBullishNo, testSeries_price,
    testSeries_getLast, mkCandle]
  norm_num [min_def, max_def]

/-- **C4 counterexample**: on `testSeries` the crossover strength is 0.02
with no BOS and no CHOCH, yet the analysis reports confidence 1 (the claim
says 2) and a fresh tracker rejects the assessment with
`"insufficient_strength"` (the claim says an alert is sent and a 30-minute
cooldown is set). -/
theorem basic_crossover_scenario_counterexample :
    (detectEmaCrossover testSeries).strength = 1/50 ∧
    (detectBreakOfStructure testSeries "long").detected = false ∧
    (detectChangeOfCharacter testSeries "long").detected = false ∧
    (analyzeMarket testSeries).confidence = 1 ∧
    (analyzeMarket testSeries).confidence ≠ 2 ∧
    (processSignal 0 true "BTCUSDT"
        (toSignalData (analyzeMarket testSeries)) {}).1.alert_sent = false ∧
    (processSignal 0 true "BTCUSDT"
        (toSignalData (analyzeMarket testSeries)) {}).1.reason =
      some "insufficient_strength" ∧
    (processSignal 0 true "BTCUSDT"
        (toSignalData (analyzeMarket testSeries)) {}).2.signal_cooldowns = [] := by
  have hp : processSignal 0 true "BTCUSDT"
      (toSignalData (analyzeMarket testSeries)) {} =
      ({ processed := false, alert_sent := false,
         reason := some "insufficient_strength",
         strength := some (1/50) }, {}) := by
    rw [analyzeMarket_testSeries]
    simp [processSignal, toSignalData, validateSignalData, minSignalStrength]
    norm_num
  refine ⟨testSeries_strength, testSeries_bos, testSeries_choch,
    by rw [analyzeMarket_testSeries], by rw [analyzeMarket_testSeries]; decide,
    by rw [hp], by rw [hp], by rw [hp]⟩

/-- Witness for C4 (amended) at the concrete series. -/
theorem basic_crossover_scenario_witness :
    (analyzeMarket testSeries).signal = "base_signal" ∧
    (analyzeMarket testSeries).confidence = 1 ∧
    (analyzeMarket testSeries).strength = 1/50 ∧
    processSignal 0 true "BTCUSDT"
        (toSignalData (analyzeMarket testSeries)) {} =
      ({ processed := false, alert_sent := false,
         reason := some "insufficient_strength",
         strength := some (1/50) }, {}) :=
  basic_crossover_scenario testSeries testSeries_signal testSeries_strength
    testSeries_bos testSeries_choch 0 true "BTCUSDT"

/-! ### Branch-result lemmas for `process_signal` -/

theorem processSignal_invalid (now : ℚ) (d : Bool) (symbol : String)
    (sd : SignalData) (st : AlertState)
    (hv : validateSignalData sd = false) :
    processSignal now d symbol sd st =
      ({ processed := false, alert_sent := false,
         reason := some "invalid_signal_data" }, st) := by
  simp [processSignal, hv]

theorem processSignal_weak (now : ℚ) (d : Bool) (symbol : String)
    (sd : SignalData) (st : AlertState)
    (hv : validateSignalData sd = true)
    (hw : sd.strength.getD 0 < minSignalStrength) :
    processSignal now d symbol sd st =
      ({ processed := false, alert_sent := false,
         reason := some "insufficient_strength",
         strength := some (sd.strength.getD 0) }, st) := by
  simp [processSignal, hv, hw]

theorem processSignal_incooldown (now : ℚ) (d : Bool) (symbol : String)
    (sd : SignalData) (st : AlertState)
    (hv : validateSignalData sd = true)
    (hw : ¬ sd.strength.getD 0 < minSignalStrength)
    (hic : (checkCooldown now symbol st.signal_cooldowns).1.in_cooldown = true) :
    processSignal now d symbol sd st =
      ({ processed := true, alert_sent := false, reason := some "cooldown",
         cooldown_remaining :=
           some (checkCooldown now symbol st.signal_cooldowns).1.remaining_seconds },
       { st with
         signal_cooldowns := (checkCooldown now symbol st.signal_cooldowns).2 }) := by
  simp [processSignal, hv, hw, hic]

theorem processSignal_alert (now : ℚ) (d : Bool) (symbol : String)
    (sd : SignalData) (st : AlertState)
    (hv : validateSignalData sd = true)
    (hw : ¬ sd.strength.getD 0 < minSignalStrength)
    (hic : (checkCooldown now symbol st.signal_cooldowns).1.in_cooldown = false)
    (ha : ((analyzeSignalUpdate symbol sd st.active_signals).should_alert &&
      d) = true) :
    processSignal now d symbol sd st =
      ({ processed := true, alert_sent := true,
         signal_update := some (analyzeSignalUpdate symbol sd st.active_signals),
         cooldown_set := some true },
       { signal_history := recordSignal now symbol sd true st.signal_history,
         active_signals := updateActiveSignals now symbol sd st.active_signals,
         signal_cooldowns :=
           setCooldown now symbol sd
             (checkCooldown now symbol st.signal_cooldowns).2 }) := by
  simp [processSignal, hv, hw, hic, ha]

theorem processSignal_noalert (now : ℚ) (d : Bool) (symbol : String)
    (sd : SignalData) (st : AlertState)
    (hv : validateSignalData sd = true)
    (hw : ¬ sd.strength.getD 0 < minSignalStrength)
    (hic : (checkCooldown now symbol st.signal_cooldowns).1.in_cooldown = false)
    (ha : ((analyzeSignalUpdate symbol sd st.active_signals).should_alert &&
      d) = false) :
    processSignal now d symbol sd st =
      ({ processed := true, alert_sent := false,
         signal_update := some (analyzeSignalUpdate symbol sd st.active_signals),
         cooldown_set := some false },
       { st with
         signal_cooldowns := (checkCooldown now symbol st.signal_cooldowns).2 }) := by
  simp [processSignal, hv, hw, hic, ha]

/-! ### Claim C1: the cooldown window invariant -/

/-- While a symbol's cooldown window is active, any submission leaves the
tracker state unchanged and sends no alert. -/
theorem processSignal_window_frozen
    (symbol : String) (st : AlertState) (e : CooldownEntry)
    (hEntry : dictGet st.signal_cooldowns symbol = some e)
    (now : ℚ) (sd : SignalData) (d : Bool) (hNow : now < e.end_time) :
    (processSignal now d symbol sd st).1.alert_sent = false ∧
    (processSignal now d symbol sd st).2 = st := by
  have hcc : checkCooldown now symbol st.signal_cooldowns =
      (⟨true, ⌊e.end_time - now⌋⟩, st.signal_cooldowns) := by
    simp [checkCooldown, hEntry, not_le.2 hNow]
  by_cases hv : validateSignalData sd
  · by_cases hw : sd.strength.getD 0 < minSignalStrength
    · simp [processSignal_weak now d symbol sd st hv hw]
    · simp [processSignal_incooldown now d symbol sd st hv hw (by rw [hcc]), hcc]
  · simp [processSignal_invalid now d symbol sd st (by simpa using hv)]

/-- `_set_cooldown` installs an entry for the symbol whose end time is
`now` plus a positive number of minutes (60 for confirmed signals, 30
otherwise). -/
theorem dictGet_setCooldown (now : ℚ) (symbol : String) (sd : SignalData)
    (cooldowns : List (String × CooldownEntry)) :
    ∃ m : ℕ, 0 < m ∧
      dictGet (setCooldown now symbol sd cooldowns) symbol =
        some ⟨now + (m : ℚ) * 60, m, sd.signal.getD ""⟩ := by
  by_cases hconf : sd.signal.getD "" = "confirmed_signal"
  · refine ⟨confirmedSignalCooldown, by decide, ?_⟩
    simp only [setCooldown, if_pos hconf]
    exact dictGet_dictSet _ _ _
  · refine ⟨baseSignalCooldown, by decide, ?_⟩
    simp only [setCooldown, if_neg hconf]
    exact dictGet_dictSet _ _ _

/-- **C1**: once an alert is sent, a cooldown entry ending strictly in the
future is set for the symbol; while `now < end_time`, every valid,
strong-enough assessment is rejected with `processed=true`,
`alert_sent=false`, reason `"cooldown"` and the remaining seconds,
regardless of its novelty, and the state is untouched; the entry is removed
(or replaced by a fresh future-ending entry) the first time it is observed
after expiry; and no alert whatsoever is dispatched over any sequence of
submissions whose times all lie inside the window. -/
theorem cooldown_window_invariant
    (symbol : String) (st : AlertState) (e : CooldownEntry)
    (hEntry : dictGet st.signal_cooldowns symbol = some e) :
    (∀ now1 d1 sd1 st1,
      (processSignal now1 d1 symbol sd1 st1).1.alert_sent = true →
      ∃ e2, dictGet (processSignal now1 d1 symbol sd1 st1).2.signal_cooldowns
          symbol = some e2 ∧
        e2.end_time = now1 + (e2.duration_minutes : ℚ) * 60 ∧
        now1 < e2.end_time) ∧
    (∀ now1 sd1 d1, validateSignalData sd1 = true →
      minSignalStrength ≤ sd1.strength.getD 0 → now1 < e.end_time →
      processSignal now1 d1 symbol sd1 st =
        ({ processed := true, alert_sent := false, reason := some "cooldown",
           cooldown_remaining := some ⌊e.end_time - now1⌋ }, st)) ∧
    (∀ now1 sd1 d1, validateSignalData sd1 = true →
      minSignalStrength ≤ sd1.strength.getD 0 → e.end_time ≤ now1 →
      dictGet (processSignal now1 d1 symbol sd1 st).2.signal_cooldowns
          symbol = none ∨
      ∃ e2, dictGet (processSignal now1 d1 symbol sd1 st).2.signal_cooldowns
          symbol = some e2 ∧ now1 < e2.end_time) ∧
    (∀ calls : List (ℚ × Bool × SignalData),
      (∀ c ∈ calls, c.1 < e.end_time) →
      (runCalls symbol st calls).2 = 0) := by
  refine ⟨?_, ?_, ?_, ?_⟩
  · intro now1 d1 sd1 st1 hsent
    by_cases hv : validateSignalData sd1
    · by_cases hw : sd1.strength.getD 0 < minSignalStrength
      · rw [processSignal_weak now1 d1 symbol sd1 st1 hv hw] at hsent
        simp at hsent
      · cases hic : (checkCooldown now1 symbol st1.signal_cooldowns).1.in_cooldown with
        | true =>
          rw [processSignal_incooldown now1 d1 symbol sd1 st1 hv hw hic] at hsent
          simp at hsent
        | false =>
          cases ha : ((analyzeSignalUpdate symbol sd1 st1.active_signals).should_alert && d1) with
          | false =>
            rw [processSignal_noalert now1 d1 symbol sd1 st1 hv hw hic ha] at hsent
            simp at hsent
          | true =>
            rw [processSignal_alert now1 d1 symbol sd1 st1 hv hw hic ha]
            obtain ⟨m, hm, hget⟩ := dictGet_setCooldown now1 symbol sd1
              (checkCooldown now1 symbol st1.signal_cooldowns).2
            refine ⟨_, hget, rfl, ?_⟩
            have hmq : (0 : ℚ) < (m : ℚ) := by exact_mod_cast hm
            show now1 < now1 + (m : ℚ) * 60
            linarith
    · rw [processSignal_invalid now1 d1 symbol sd1 st1 (by simpa using hv)] at hsent
      simp at hsent
  · intro now1 sd1 d1 hv hs hNow
    have hcc : checkCooldown now1 symbol st.signal_cooldowns =
        (⟨true, ⌊e.end_time - now1⌋⟩, st.signal_cooldowns) := by
      simp [checkCooldown, hEntry, not_le.2 hNow]
    rw [processSignal_incooldown now1 d1 symbol sd1 st hv (not_lt.2 hs)
      (by rw [hcc])]
    rw [hcc]
  · intro now1 sd1 d1 hv hs hExp
    have hcc : checkCooldown now1 symbol st.signal_cooldowns =
        (⟨false, 0⟩, dictDel st.signal_cooldowns symbol) := by
      simp [checkCooldown, hEntry, hExp]
    cases ha : ((analyzeSignalUpdate symbol sd1 st.active_signals).should_alert && d1) with
    | false =>
      left
      rw [processSignal_noalert now1 d1 symbol sd1 st hv (not_lt.2 hs)
        (by rw [hcc]) ha]
      rw [hcc]
      exact dictGet_dictDel st.signal_cooldowns symbol
    | true =>
      right
      rw [processSignal_alert now1 d1 symbol sd1 st hv (not_lt.2 hs)
        (by rw [hcc]) ha]
      obtain ⟨m, hm, hget⟩ := dictGet_setCooldown now1 symbol sd1
        (checkCooldown now1 symbol st.signal_cooldowns).2
      refine ⟨_, hget, ?_⟩
      have hmq : (0 : ℚ) < (m : ℚ) := by exact_mod_cast hm
      show now1 < now1 + (m : ℚ) * 60
      linarith
  · intro calls
    induction calls with
    | nil => intro _; simp [runCalls]
    | cons c rest ih =>
      intro hcalls
      obtain ⟨t, d1, sd1⟩ := c
      have hfr := processSignal_window_frozen symbol st e hEntry t sd1 d1
        (hcalls _ (List.mem_cons_self _ _))
      simp [runCalls, hfr.1, hfr.2]
      exact ih (fun c hc => hcalls c (List.mem_cons_of_mem _ hc))

def cooldownEntryW : CooldownEntry := ⟨1000, 30, "base_signal"⟩

def stCooldownW : AlertState :=
  { signal_cooldowns := [("BTCUSDT", cooldownEntryW)] }

def sdW : SignalData :=
  { signal := some "base_signal", direction := some "long",
    strength := some (4/5), confidence := some 2 }

/-- Witness for C1: a submission 600 seconds before the cooldown expires is
rejected with the remaining seconds and the state kept. -/
theorem cooldown_window_invariant_witness :
    processSignal 400 true "BTCUSDT" sdW stCooldownW =
      ({ processed := true, alert_sent := false, reason := some "cooldown",
         cooldown_remaining := some 600 }, stCooldownW) := by
  have h := (cooldown_window_invariant "BTCUSDT" stCooldownW cooldownEntryW
      (by simp [stCooldownW, dictGet])).2.1 400 sdW true
      (by norm_num [validateSignalData, sdW])
      (by norm_num [sdW, minSignalStrength])
      (by norm_num [cooldownEntryW])
  rw [h]
  norm_num [cooldownEntryW]

/-! ### Claim C3: history recording (corrected: `_record_signal` runs only
when an alert is actually dispatched, so suppressed assessments are not
appended) -/

def sdIdent : SignalData :=
  { signal := some "base_signal", direction := some "long",
    strength := some (4/5), confidence := some 2 }

def prevIdent : ActiveSignal := ⟨"base_signal", "long", 4/5, 2, 0, none, 0⟩

def stIdent : AlertState := { active_signals := [("BTCUSDT", prevIdent)] }

/-- **C3 counterexample**: a valid, strong assessment with no cooldown that
reaches novelty evaluation (`signal_update` of type `"no_change"`) is
processed but nothing is appended to the history, contradicting the claim
that every assessment reaching novelty evaluation is recorded. -/
theorem history_append_counterexample :
    (processSignal 0 true "BTCUSDT" sdIdent stIdent).1.processed = true ∧
    (processSignal 0 true "BTCUSDT" sdIdent stIdent).1.signal_update =
      some ⟨"no_change", false⟩ ∧
    (processSignal 0 true "BTCUSDT" sdIdent stIdent).2.signal_history = [] := by
  have hupd : analyzeSignalUpdate "BTCUSDT" sdIdent stIdent.active_signals =
      ⟨"no_change", false⟩ := by
    norm_num [analyzeSignalUpdate, stIdent, prevIdent, sdIdent, dictGet]
  have hres : processSignal 0 true "BTCUSDT" sdIdent stIdent =
      ({ processed := true, alert_sent := false,
         signal_update := some ⟨"no_change", false⟩,
         cooldown_set := some false }, stIdent) := by
    rw [processSignal_noalert 0 true "BTCUSDT" sdIdent stIdent
      (by norm_num [validateSignalData, sdIdent])
      (by norm_num [sdIdent, minSignalStrength])
      (by simp [checkCooldown, stIdent, dictGet])
      (by rw [hupd]; rfl)]
    rw [hupd]
    simp [checkCooldown, stIdent, dictGet]
  exact ⟨by rw [hres], by rw [hres], by rw [hres]; rfl⟩

/-- **C3 (amended)**: the history is appended exactly when an alert is
dispatched successfully — the appended record carries the dispatch outcome
— suppressed or failed submissions leave the history untouched; and the
stored history is bounded by 1000 records, keeping exactly the most recent
records in arrival order (oldest evicted first). -/
theorem history_bounded_records_alerts
    (now : ℚ) (d : Bool) (symbol : String) (sd : SignalData)
    (st : AlertState) :
    ((processSignal now d symbol sd st).1.alert_sent = true →
      (processSignal now d symbol sd st).2.signal_history =
        (st.signal_history ++ [mkHistoryRecord now symbol sd true]).drop
          ((st.signal_history.length + 1) - 1000)) ∧
    ((processSignal now d symbol sd st).1.alert_sent = false →
      (processSignal now d symbol sd st).2.signal_history =
        st.signal_history) ∧
    (st.signal_history.length ≤ 1000 →
      (processSignal now d symbol sd st).2.signal_history.length ≤ 1000) := by
  have key : ∀ hsent : (processSignal now d symbol sd st).1.alert_sent = true,
      (processSignal now d symbol sd st).2.signal_history =
        (st.signal_history ++ [mkHistoryRecord now symbol sd true]).drop
          ((st.signal_history.length + 1) - 1000) := by
    intro hsent
    by_cases hv : validateSignalData sd
    · by_cases hw : sd.strength.getD 0 < minSignalStrength
      · rw [processSignal_weak now d symbol sd st hv hw] at hsent ⊢
        simp at hsent
      · cases hic : (checkCooldown now symbol st.signal_cooldowns).1.in_cooldown with
        | true =>
          rw [processSignal_incooldown now d symbol sd st hv hw hic] at hsent
          simp at hsent
        | false =>
          cases ha : ((analyzeSignalUpdate symbol sd st.active_signals).should_alert && d) with
          | false =>
            rw [processSignal_noalert now d symbol sd st hv hw hic ha] at hsent
            simp at hsent
          | true =>
            rw [processSignal_alert now d symbol sd st hv hw hic ha]
            exact recordSignal_eq_drop now symbol sd true st.signal_history
    · rw [processSignal_invalid now d symbol sd st (by simpa using hv)] at hsent
      simp at hsent
  have key2 : ∀ _ : (processSignal now d symbol sd st).1.alert_sent = false,
      (processSignal now d symbol sd st).2.signal_history =
        st.signal_history := by
    intro hsent
    by_cases hv : validateSignalData sd
    · by_cases hw : sd.strength.getD 0 < minSignalStrength
      · rw [processSignal_weak now d symbol sd st hv hw]
      · cases hic : (checkCooldown now symbol st.signal_cooldowns).1.in_cooldown with
        | true => rw [processSignal_incooldown now d symbol sd st hv hw hic]
        | false =>
          cases ha : ((analyzeSignalUpdate symbol sd st.active_signals).should_alert && d) with
          | false => rw [processSignal_noalert now d symbol sd st hv hw hic ha]
          | true =>
            rw [processSignal_alert now d symbol sd st hv hw hic ha] at hsent
            simp at hsent
    · rw [processSignal_invalid now d symbol sd st (by simpa using hv)]
  refine ⟨key, key2, ?_⟩
  intro hbound
  cases hsent : (processSignal now d symbol sd st).1.alert_sent with
  | false => rw [key2 hsent]; exact hbound
  | true =>
    rw [key hsent]
    simp only [List.length_drop, List.length_append, List.length_cons,
      List.length_nil]
    omega

/-- Witness for C3 (amended): an invalid submission leaves the history
empty. -/
theorem history_bounded_records_alerts_witness :
    (processSignal 0 true "BTCUSDT" {} {}).2.signal_history = [] :=
  (history_bounded_records_alerts 0 true "BTCUSDT" {} {}).2.1
    (by rw [processSignal_invalid 0 true "BTCUSDT" {} {} rfl])

/-! ### Claim C6: the novelty gate -/

/-- **C6**: for a symbol with no cooldown entry and a stored active signal,
a valid, strong-enough assessment identical to the stored one within
tolerance (same signal kind, direction and confidence, `|Δstrength| ≤ 0.1`)
yields no alert and leaves the tracker state unchanged — so two identical
submissions in immediate succession yield exactly one alert — while an
assessment differing in signal kind, direction, confidence, or with
`|Δstrength| > 0.1` triggers a new alert (when dispatch succeeds) and a
cooldown reset. -/
theorem novelty_gate
    (now : ℚ) (symbol : String) (sd : SignalData) (st : AlertState)
    (prev : ActiveSignal)
    (hValid : validateSignalData sd = true)
    (hStrength : minSignalStrength ≤ sd.strength.getD 0)
    (hNoCooldown : dictGet st.signal_cooldowns symbol = none)
    (hActive : dictGet st.active_signals symbol = some prev) :
    (prev.signal = sd.signal.getD "" → prev.direction = sd.direction.getD "" →
      |prev.strength - sd.strength.getD 0| ≤ 1/10 →
      prev.confidence = sd.confidence.getD 0 →
      ∀ d, processSignal now d symbol sd st =
        ({ processed := true, alert_sent := false,
           signal_update := some ⟨"no_change", false⟩,
           cooldown_set := some false }, st)) ∧
    ((prev.signal ≠ sd.signal.getD "" ∨ prev.direction ≠ sd.direction.getD "" ∨
        1/10 < |prev.strength - sd.strength.getD 0| ∨
        prev.confidence ≠ sd.confidence.getD 0) →
      processSignal now true symbol sd st =
        ({ processed := true, alert_sent := true,
           signal_update := some ⟨"signal_update", true⟩,
           cooldown_set := some true },
         { signal_history := recordSignal now symbol sd true st.signal_history,
           active_signals := updateActiveSignals now symbol sd st.active_signals,
           signal_cooldowns := setCooldown now symbol sd st.signal_cooldowns })) := by
  have hic : checkCooldown now symbol st.signal_cooldowns =
      (⟨false, 0⟩, st.signal_cooldowns) := by
    simp [checkCooldown, hNoCooldown]
  constructor
  · intro h1 h2 h3 h4 d
    have hupd : analyzeSignalUpdate symbol sd st.active_signals =
        ⟨"no_change", false⟩ := by
      simp only [analyzeSignalUpdate, hActive]
      rw [if_neg (by push_neg; exact ⟨h1, h2, h3, h4⟩)]
    rw [processSignal_noalert now d symbol sd st hValid (not_lt.2 hStrength)
      (by rw [hic]) (by rw [hupd]; rfl)]
    rw [hupd, hic]
  · intro hdiff
    have hupd : analyzeSignalUpdate symbol sd st.active_signals =
        ⟨"signal_update", true⟩ := by
      simp only [analyzeSignalUpdate, hActive]
      rw [if_pos hdiff]
    rw [processSignal_alert now true symbol sd st hValid (not_lt.2 hStrength)
      (by rw [hic]) (by rw [hupd]; rfl)]
    rw [hupd, hic]

/-- Witness for C6: an identical resubmission is suppressed. -/
theorem novelty_gate_witness :
    processSignal 5 true "BTCUSDT" sdIdent stIdent =
      ({ processed := true, alert_sent := false,
         signal_update := some ⟨"no_change", false⟩,
         cooldown_set := some false }, stIdent) :=
  (novelty_gate 5 "BTCUSDT" sdIdent stIdent prevIdent
      (by norm_num [validateSignalData, sdIdent])
      (by norm_num [sdIdent, minSignalStrength])
      (by simp [stIdent, dictGet])
      (by simp [stIdent, dictGet])).1
    (by simp [prevIdent, sdIdent]) (by simp [prevIdent, sdIdent])
    (by norm_num [prevIdent, sdIdent]) (by norm_num [prevIdent, sdIdent]) true

/-! ### Claim C9: dispatch failure mutates nothing -/

/-- **C9**: for a valid assessment that passes the strength and cooldown
gates, if the notification dispatch reports failure the verdict is
`processed=true`, `alert_sent=false` and no tracker state is mutated — no
cooldown entry, no active-signal update, no history record; all three
mutations happen exactly when dispatch reports success and the novelty
analysis called for an alert. -/
theorem dispatch_failure_no_mutation
    (now : ℚ) (symbol : String) (sd : SignalData) (st : AlertState)
    (hValid : validateSignalData sd = true)
    (hStrength : minSignalStrength ≤ sd.strength.getD 0)
    (hNoCooldown : dictGet st.signal_cooldowns symbol = none) :
    (processSignal now false symbol sd st =
      ({ processed := true, alert_sent := false,
         signal_update := some (analyzeSignalUpdate symbol sd st.active_signals),
         cooldown_set := some false }, st)) ∧
    ((analyzeSignalUpdate symbol sd st.active_signals).should_alert = true →
      processSignal now true symbol sd st =
        ({ processed := true, alert_sent := true,
           signal_update := some (analyzeSignalUpdate symbol sd st.active_signals),
           cooldown_set := some true },
         { signal_history := recordSignal now symbol sd true st.signal_history,
           active_signals := updateActiveSignals now symbol sd st.active_signals,
           signal_cooldowns := setCooldown now symbol sd st.signal_cooldowns })) := by
  have hic : checkCooldown now symbol st.signal_cooldowns =
      (⟨false, 0⟩, st.signal_cooldowns) := by
    simp [checkCooldown, hNoCooldown]
  constructor
  · rw [processSignal_noalert now false symbol sd st hValid (not_lt.2 hStrength)
      (by rw [hic]) (by simp)]
    rw [hic]
  · intro ha
    rw [processSignal_alert now true symbol sd st hValid (not_lt.2 hStrength)
      (by rw [hic]) (by simp [ha])]
    rw [hic]

/-- Witness for C9: a failed dispatch of a fresh signal leaves the empty
tracker state empty. -/
theorem dispatch_failure_no_mutation_witness :
    processSignal 0 false "ETHUSDT" sdIdent {} =
      ({ processed := true, alert_sent := false,
         signal_update := some ⟨"new_signal", true⟩,
         cooldown_set := some false }, {}) := by
  have h := (dispatch_failure_no_mutation 0 "ETHUSDT" sdIdent {}
      (by norm_num [validateSignalData, sdIdent])
      (by norm_num [sdIdent, minSignalStrength]) rfl).1
  rw [h]
  simp [analyzeSignalUpdate, dictGet]

/-! ### Claim C5: CHOCH reversal detection (corrected: the trailing mean
must be strictly negative, not merely `≤ 0`) -/

theorem detectCHOCH_long_eq (df : List Candle)
    (hlen : chochLookback + 10 ≤ df.length) (c a : ℚ)
    (hcm : currentMomentumOf df = some c) (ham : avgMomentumOf df = some a) :
    detectChangeOfCharacter df "long" =
      if 0 < c ∧ a < 0 then
        { detected := true, strength := min ((c - a) / |a|) 1,
          volume_confirmed :=
            decide (listMean (pdTail 20 (df.map (·.volume))) * volumeThreshold ≤
              ((df.map (·.volume)).getLast?).getD 0),
          current_momentum := some c, avg_momentum := some a }
      else
        { detected := false, strength := 0, volume_confirmed := false,
          current_momentum := some c, avg_momentum := some a } := by
  by_cases hd : 0 < c ∧ a < 0
  · simp [detectChangeOfCharacter, not_lt.2 hlen, hcm, ham, hd,
      ne_of_lt hd.2]
  · simp [detectChangeOfCharacter, not_lt.2 hlen, hcm, ham, hd]

theorem detectCHOCH_short_eq (df : List Candle)
    (hlen : chochLookback + 10 ≤ df.length) (c a : ℚ)
    (hcm : currentMomentumOf df = some c) (ham : avgMomentumOf df = some a) :
    detectChangeOfCharacter df "short" =
      if c < 0 ∧ 0 < a then
        { detected := true, strength := min ((a - c) / |a|) 1,
          volume_confirmed :=
            decide (listMean (pdTail 20 (df.map (·.volume))) * volumeThreshold ≤
              ((df.map (·.volume)).getLast?).getD 0),
          current_momentum := some c, avg_momentum := some a }
      else
        { detected := false, strength := 0, volume_confirmed := false,
          current_momentum := some c, avg_momentum := some a } := by
  by_cases hd : c < 0 ∧ 0 < a
  · simp [detectChangeOfCharacter, not_lt.2 hlen, hcm, ham, neShortLong, hd,
      ne_of_gt hd.2]
  · simp [detectChangeOfCharacter, not_lt.2 hlen, hcm, ham, neShortLong, hd]

/-- **C5 (amended)**: with at least `M + 10` bars, the CHOCH detector for
direction long reports detected iff the latest smoothed momentum value is
`> 0` and the trailing `M`-value mean is strictly `< 0` (the code uses a
strict comparison, so a mean of exactly 0 is never detected), with strength
`min((latest - mean)/|mean|, 1)`; the mirror holds for direction short;
shorter series report not-detected with strength 0. -/
theorem choch_reversal_detection (df : List Candle) :
    (∀ direction, df.length < chochLookback + 10 →
      detectChangeOfCharacter df direction =
        { detected := false, strength := 0, volume_confirmed := false }) ∧
    (chochLookback + 10 ≤ df.length →
      ∀ c a, currentMomentumOf df = some c → avgMomentumOf df = some a →
      (((detectChangeOfCharacter df "long").detected = true ↔
          (0 < c ∧ a < 0)) ∧
        (0 < c → a < 0 →
          (detectChangeOfCharacter df "long").strength = min ((c - a) / |a|) 1) ∧
        ((detectChangeOfCharacter df "long").detected = false →
          (detectChangeOfCharacter df "long").strength = 0)) ∧
      (((detectChangeOfCharacter df "short").detected = true ↔
          (c < 0 ∧ 0 < a)) ∧
        (c < 0 → 0 < a →
          (detectChangeOfCharacter df "short").strength = min ((a - c) / |a|) 1) ∧
        ((detectChangeOfCharacter df "short").detected = false →
          (detectChangeOfCharacter df "short").strength = 0))) := by
  refine ⟨fun direction h => by simp [detectChangeOfCharacter, h], ?_⟩
  intro hlen c a hcm ham
  have hl := detectCHOCH_long_eq df hlen c a hcm ham
  have hsh := detectCHOCH_short_eq df hlen c a hcm ham
  refine ⟨⟨?_, ?_, ?_⟩, ?_, ?_, ?_⟩
  · rw [hl]
    split_ifs with h
    · simpa using h
    · simpa using h
  · intro h1 h2
    rw [hl, if_pos ⟨h1, h2⟩]
  · intro hd
    rw [hl] at hd ⊢
    by_cases h : 0 < c ∧ a < 0
    · rw [if_pos h] at hd
      simp at hd
    · rw [if_neg h]
  · rw [hsh]
    split_ifs with h
    · simpa using h
    · simpa using h
  · intro h1 h2
    rw [hsh, if_pos ⟨h1, h2⟩]
  · intro hd
    rw [hsh] at hd ⊢
    by_cases h : c < 0 ∧ 0 < a
    · rw [if_pos h] at hd
      simp at hd
    · rw [if_neg h]

/-! A concrete 20-bar series whose trailing momentum mean is exactly 0
while the latest smoothed momentum is positive: closes are 100 everywhere
except 105 at index 7 and 105 at index 19. -/

def chochSeries : List Candle :=
  (List.replicate 7 (mkCandle 100)) ++ [mkCandle 105] ++
    (List.replicate 11 (mkCandle 100)) ++ [mkCandle 105]

set_option maxHeartbeats 1000000 in
theorem chochSeries_current : currentMomentumOf chochSeries = some 1 := by
  simp [currentMomentumOf, recentMomentumOf, momentumMAOf, rollingMeanOpt,
    rollingMeanOptAux, pdDiff, pdDiffAux, pdTail, optMean, chochSeries,
    mkCandle, chochLookback]
  norm_num

set_option maxHeartbeats 1000000 in
theorem chochSeries_avg : avgMomentumOf chochSeries = some 0 := by
  simp [avgMomentumOf, recentMomentumOf, momentumMAOf, rollingMeanOpt,
    rollingMeanOptAux, pdDiff, pdDiffAux, pdTail, optMean, chochSeries,
    mkCandle, chochLookback]
  norm_num

set_option maxHeartbeats 1000000 in
theorem chochSeries_not_detected :
    (detectChangeOfCharacter chochSeries "long").detected = false := by
  simp [detectChangeOfCharacter, chochSeries, mkCandle, chochLookback,
    currentMomentumOf, avgMomentumOf, recentMomentumOf, momentumMAOf,
    rollingMeanOpt, rollingMeanOptAux, pdDiff, pdDiffAux, pdTail, optMean]
  norm_num

/-- **C5 counterexample**: on a 20-bar series with latest smoothed momentum
`1 > 0` and trailing mean exactly `0`, the claim ("detected iff latest > 0
and mean ≤ 0") demands detection, but the detector reports not-detected
because the code compares the mean strictly against 0. -/
theorem choch_reversal_detection_counterexample :
    chochSeries.length = chochLookback + 10 ∧
    currentMomentumOf chochSeries = some 1 ∧
    avgMomentumOf chochSeries = some 0 ∧
    ((0 : ℚ) < 1 ∧ (0 : ℚ) ≤ 0) ∧
    (detectChangeOfCharacter chochSeries "long").detected = false := by
  refine ⟨?_, chochSeries_current, chochSeries_avg, by norm_num,
    chochSeries_not_detected⟩
  simp [chochSeries, chochLookback]

/-- Witness for C5 at the empty series. -/
theorem choch_reversal_detection_witness :
    detectChangeOfCharacter [] "long" =
      { detected := false, strength := 0, volume_confirmed := false } :=
  (choch_reversal_detection []).1 "long" (by decide)
